import Mathlib

/-!
# GPIO interrupt demo (`interrupt/cpp/interrupt.cpp`)

A shallow embedding of the sample: the global `counter`, the callback
`interrupt`, and `main` (platform switch, pin set-up, ISR registration and the
endless reporting loop), together with the properties stated about them.

The MRAA library (`mraa.hpp`) is an external collaborator.  Its answers are the
fields of `Env`; the numeric values of its result enumerators are the fields of
`ResultCodes`.  Everything the statements of the program do that can be observed
from outside (library calls, lines on the two output streams, sleeps) is
appended, in order, to `World.trace`.

`new mraa::Gpio(pin)` is a plain new-expression: it either yields a pointer to
the constructed object, which is never null, or it throws.  `main` has no
handler, so a throwing constructor ends the process at once (`Pc.aborted`); the
null test of line 79 is kept in `main_configure`, where no run reaches it.

The callback runs asynchronously to `main`.  A run is a list of `Step`s: a
callback invocation, or a slot of the main thread (the start-up block of lines
63-95, or one pass through the loop body of lines 99-100).  The start-up block
and the sleep neither read nor write `counter`, and the callback touches nothing
else, so a callback invocation falling inside one of these blocks has the same
effect as one falling just before or after it; the print reads `counter` once.

`counter` is an `int`: `++counter` is taken modulo `2^32` into the signed 32-bit
range, which is what the increment does on the supported boards.
-/

set_option linter.unusedVariables false

namespace Interrupt

/-! ## Types of the hardware library -/

/-- Modelled from the spec: `mraa::Platform` is declared in `mraa.hpp`, which is
not among the sources.  The four enumerators named in the `switch` of `main` are
kept by name (case labels of one `switch` have different values); `other id`
stands for any platform identifier whose value is none of these four. -/
inductive Platform
  | INTEL_GALILEO_GEN1
  | INTEL_GALILEO_GEN2
  | INTEL_EDISON_FAB_C
  | INTEL_GT_TUCHUCK
  | other (id : Nat)
  deriving DecidableEq

/-- Modelled from the spec: `mraa::Dir` is declared in `mraa.hpp`, which is not
among the sources.  `main` only uses `DIR_IN`. -/
inductive Dir
  | DIR_OUT
  | DIR_IN
  | DIR_OUT_HIGH
  | DIR_OUT_LOW
  deriving DecidableEq

/-- Modelled from the spec: `mraa::Edge` is declared in `mraa.hpp`, which is not
among the sources.  `main` only uses `EDGE_BOTH`. -/
inductive Edge
  | EDGE_NONE
  | EDGE_BOTH
  | EDGE_RISING
  | EDGE_FALLING
  deriving DecidableEq

/-- A `void *` value. -/
abbrev Ptr := Nat

/-- The null pointer. -/
def NULL : Ptr := 0

/-- Function pointers that the program can hand to `isr`: the only function it
defines besides `main` is `interrupt`. -/
inductive Callback
  | interrupt
  deriving DecidableEq

/-- An `mraa::Gpio` object, identified by the pin number given to its
constructor. -/
structure Gpio where
  pin : Int
  deriving DecidableEq

/-- Numeric values of the `mraa::Result` enumerators used by `main`.  They are
defined in the library headers, so they are a parameter here. -/
structure ResultCodes where
  SUCCESS : Int
  ERROR_INVALID_PLATFORM : Int
  ERROR_UNSPECIFIED : Int

/-- The values the MRAA headers give to the three enumerators
(`MRAA_SUCCESS = 0`, `MRAA_ERROR_INVALID_PLATFORM = 10`,
`MRAA_ERROR_UNSPECIFIED = 99`); used for concrete runs only. -/
def mraaCodes : ResultCodes :=
  { SUCCESS := 0, ERROR_INVALID_PLATFORM := 10, ERROR_UNSPECIFIED := 99 }

/-- Answers of the hardware library to the four operations `main` uses.
`newGpio pin` tells whether the constructor call of `new mraa::Gpio(pin)`
completes (`true`) or throws (`false`); `dir` and `isr` give the `mraa::Result`
of the call. -/
structure Env where
  getPlatformType : Platform
  newGpio : Int → Bool
  dir : Gpio → Dir → Int
  isr : Gpio → Edge → Callback → Ptr → Int

/-! ## Observable events and process state -/

/-- One externally visible action of the process. -/
inductive Event
  | getPlatformType
  | newGpio (pin : Int)
  | dir (self : Gpio) (d : Dir)
  | isr (self : Gpio) (mode : Edge) (fptr : Callback) (args : Ptr)
  | cerr (line : String)
  | cout (line : String)
  | sleep (seconds : Nat)
  deriving DecidableEq

/-- Where the main thread stands: before line 63, inside the `for (;;)` of
lines 98-101, returned from `main` with a status, or gone because an exception
left `main` uncaught and the process was terminated. -/
inductive Pc
  | entry
  | loop
  | returned (status : Int)
  | aborted
  deriving DecidableEq

/-- State of the process: the global `counter`, everything done so far, and the
position of the main thread. -/
structure World where
  counter : Int
  trace : List Event
  pc : Pc
  deriving DecidableEq

/-- Process start: `static volatile int counter = 0;`, nothing done yet. -/
def init : World := { counter := 0, trace := [], pc := Pc.entry }

/-- Append one event to the trace. -/
def World.emit (w : World) (e : Event) : World :=
  { w with trace := w.trace ++ [e] }

/-- Largest value of a 32-bit `int`. -/
def INT_MAX : Int := 2147483647

/-- Smallest value of a 32-bit `int`. -/
def INT_MIN : Int := -2147483648

/-- Reduction of an integer to the 32-bit two-complement range. -/
def wrapInt (x : Int) : Int := (x - INT_MIN) % 4294967296 + INT_MIN

/-! ## The program -/

/-- Lines 55-57: `void interrupt(void * args) { ++counter; }`.  The argument is
not used; the increment is that of a 32-bit `int`. -/
def interrupt (args : Ptr) (w : World) : World :=
  { w with counter := wrapInt (w.counter + 1) }

/-- The expression `new mraa::Gpio(pin)` of lines 69 and 72: the constructor
call is recorded; the result is the constructed object, or `none` when the
constructor throws.  There is no outcome in which the expression yields a null
pointer. -/
def newGpio (env : Env) (pin : Int) (w : World) : World × Option Gpio :=
  (w.emit (Event.newGpio pin), if env.newGpio pin then some { pin := pin } else none)

/-- An exception leaves `main` uncaught: the process is terminated where it
stands, without any further statement of `main` being executed. -/
def terminate (w : World) : World :=
  { w with pc := Pc.aborted }

/-- Lines 79-95 of `main`: null check on the pointer `d_pin` (`none` is the null
pointer), `dir(DIR_IN)`, `isr(EDGE_BOTH, interrupt, NULL)`.  Ends either
returned with a status or at the head of the loop. -/
def main_configure (m : ResultCodes) (env : Env) (w : World) (d_pin : Option Gpio) : World :=
  match d_pin with
  | none =>
    { w.emit (Event.cerr "Can't create mraa::Gpio object, exiting") with
      pc := Pc.returned m.ERROR_UNSPECIFIED }
  | some g =>
    let w1 := w.emit (Event.dir g Dir.DIR_IN)
    if env.dir g Dir.DIR_IN ≠ m.SUCCESS then
      { w1.emit (Event.cerr "Can't set digital pin as input, exiting") with
        pc := Pc.returned m.ERROR_UNSPECIFIED }
    else
      let w2 := w1.emit (Event.isr g Edge.EDGE_BOTH Callback.interrupt NULL)
      if env.isr g Edge.EDGE_BOTH Callback.interrupt NULL ≠ m.SUCCESS then
        { w2.emit (Event.cerr "Can't assign ISR to pin, exiting") with
          pc := Pc.returned m.ERROR_UNSPECIFIED }
      else
        { w2 with pc := Pc.loop }

/-- Lines 63-95 of `main`: query the platform, `switch` on it to construct the
`Gpio`, then configure it.  When the constructor throws, the process is
terminated; otherwise `d_pin` points to the new object. -/
def main_startup (m : ResultCodes) (env : Env) (w : World) : World :=
  let platform := env.getPlatformType
  let w0 := w.emit Event.getPlatformType
  match platform with
  | Platform.INTEL_GALILEO_GEN1
  | Platform.INTEL_GALILEO_GEN2
  | Platform.INTEL_EDISON_FAB_C =>
    match newGpio env 4 w0 with
    | (w1, none) => terminate w1
    | (w1, some g) => main_configure m env w1 (some g)
  | Platform.INTEL_GT_TUCHUCK =>
    match newGpio env 1 w0 with
    | (w1, none) => terminate w1
    | (w1, some g) => main_configure m env w1 (some g)
  | _ =>
    { w0.emit (Event.cerr "Unsupported platform, exiting") with
      pc := Pc.returned m.ERROR_INVALID_PLATFORM }

/-- Lines 99-100, one pass through the body of `for (;;)`: print the counter,
then `sleep(1)`. -/
def main_loopBody (w : World) : World :=
  (w.emit (Event.cout ("counter value " ++ toString w.counter))).emit (Event.sleep 1)

/-- One scheduling slot of the main thread: the start-up block when `main` has
not begun, one loop pass when it is in the loop, nothing once it has returned
or the process has been terminated. -/
def mainStep (m : ResultCodes) (env : Env) (w : World) : World :=
  match w.pc with
  | Pc.entry => main_startup m env w
  | Pc.loop => main_loopBody w
  | Pc.returned _ => w
  | Pc.aborted => w

/-- What runs next: the driver invoking the callback with some argument, or the
main thread.  No assumption is made on when or how often the driver calls. -/
inductive Step
  | irq (args : Ptr)
  | main
  deriving DecidableEq

/-- Effect of one scheduled step. -/
def step (m : ResultCodes) (env : Env) (w : World) : Step → World
  | Step.irq args => interrupt args w
  | Step.main => mainStep m env w

/-- Effect of a finite schedule, in any interleaving of callback invocations and
main-thread slots. -/
def run (m : ResultCodes) (env : Env) (w : World) (sched : List Step) : World :=
  sched.foldl (step m env) w

/-! ## Projections of the trace -/

/-- Lines written to standard output, in order. -/
def stdoutLines (t : List Event) : List String :=
  t.filterMap fun e => match e with
    | Event.cout l => some l
    | _ => none

/-- Lines written to standard error, in order. -/
def stderrLines (t : List Event) : List String :=
  t.filterMap fun e => match e with
    | Event.cerr l => some l
    | _ => none

/-- Pin numbers passed to the `Gpio` constructor, in order. -/
def gpioPins (t : List Event) : List Int :=
  t.filterMap fun e => match e with
    | Event.newGpio p => some p
    | _ => none

/-- Calls made to the hardware library, in order. -/
def hwCalls (t : List Event) : List Event :=
  t.filter fun e => match e with
    | Event.getPlatformType => true
    | Event.newGpio _ => true
    | Event.dir _ _ => true
    | Event.isr _ _ _ _ => true
    | _ => false

/-! ## The documented pin table -/

/-- The pin table as the specification words it: the two Galileo boards and the
Edison map to pin 4, the Tuchuck board maps to pin 1, every other platform is
unsupported. -/
def documentedPin (p : Platform) : Option Int :=
  if p = Platform.INTEL_GALILEO_GEN1 ∨ p = Platform.INTEL_GALILEO_GEN2
      ∨ p = Platform.INTEL_EDISON_FAB_C then some 4
  else if p = Platform.INTEL_GT_TUCHUCK then some 1
  else none

/-- The four fatal conditions of the error taxonomy. -/
inductive Failure
  | unsupportedPlatform
  | construction
  | direction
  | registration
  deriving DecidableEq

/-- Which failure, if any, an environment leads to: the platform is not in the
pin table, or else the first of line construction, direction setting and
callback registration whose library call does not succeed (a constructor that
throws, a `dir` or `isr` result other than `SUCCESS`). -/
def failureOf (m : ResultCodes) (env : Env) : Option Failure :=
  match documentedPin env.getPlatformType with
  | none => some Failure.unsupportedPlatform
  | some pin =>
    if env.newGpio pin = false then some Failure.construction
    else if env.dir { pin := pin } Dir.DIR_IN ≠ m.SUCCESS then some Failure.direction
    else if env.isr { pin := pin } Edge.EDGE_BOTH Callback.interrupt NULL ≠ m.SUCCESS then
      some Failure.registration
    else none

/-- The value `main` returned, when it has returned. -/
def exitStatus (w : World) : Option Int :=
  match w.pc with
  | Pc.returned s => some s
  | _ => none

/-- Number of main-thread slots in a schedule. -/
def mainCount : List Step → Nat
  | [] => 0
  | Step.irq _ :: rest => mainCount rest
  | Step.main :: rest => mainCount rest + 1

/-- What the reporting loop is to produce when it prints the given counter
values in turn: for each one the line `counter value <N>`, then a one-second
sleep. -/
def loopOutput : List Int → List Event
  | [] => []
  | v :: vs =>
    Event.cout ("counter value " ++ toString v) :: Event.sleep 1 :: loopOutput vs

/-- Number of callback invocations in a schedule. -/
def irqCount : List Step → Nat
  | [] => 0
  | Step.irq _ :: rest => irqCount rest + 1
  | Step.main :: rest => irqCount rest

/-- The library calls of a successful start-up on the given pin, in program
order. -/
def startupCalls (pin : Int) : List Event :=
  [Event.getPlatformType, Event.newGpio pin, Event.dir { pin := pin } Dir.DIR_IN,
   Event.isr { pin := pin } Edge.EDGE_BOTH Callback.interrupt NULL]

/-! ## Sample environments -/

/-- An environment in which every call succeeds on Galileo Gen 1. -/
def envOk : Env :=
  { getPlatformType := Platform.INTEL_GALILEO_GEN1
    newGpio := fun _ => true
    dir := fun _ _ => 0
    isr := fun _ _ _ _ => 0 }

/-- A platform outside the pin table. -/
def envUnsupported : Env :=
  { envOk with getPlatformType := Platform.other 5 }

/-- Galileo Gen 1 on which the constructor of `new mraa::Gpio(4)` throws. -/
def envCtorFails : Env :=
  { envOk with newGpio := fun _ => false }

/-- Galileo Gen 1 on which `dir` answers a non-success result. -/
def envDirFails : Env :=
  { envOk with dir := fun _ _ => 1 }

/-- Galileo Gen 1 on which `isr` answers a non-success result. -/
def envIsrFails : Env :=
  { envOk with isr := fun _ _ _ _ => 1 }

/-! ## Basic facts -/

theorem wrapInt_eq_self (x : Int) (h1 : INT_MIN ≤ x) (h2 : x ≤ INT_MAX) : wrapInt x = x := by
  unfold wrapInt INT_MIN INT_MAX at *
  omega

theorem wrapInt_succ_wrapInt (x : Int) : wrapInt (wrapInt x + 1) = wrapInt (x + 1) := by
  unfold wrapInt INT_MIN
  omega

theorem wrapInt_add_wrapInt (x y : Int) : wrapInt (wrapInt x + y) = wrapInt (x + y) := by
  unfold wrapInt INT_MIN
  omega

@[simp] theorem interrupt_trace (args : Ptr) (w : World) : (interrupt args w).trace = w.trace := rfl

@[simp] theorem interrupt_pc (args : Ptr) (w : World) : (interrupt args w).pc = w.pc := rfl

@[simp] theorem interrupt_counter (args : Ptr) (w : World) :
    (interrupt args w).counter = wrapInt (w.counter + 1) := rfl

@[simp] theorem main_loopBody_counter (w : World) : (main_loopBody w).counter = w.counter := rfl

@[simp] theorem main_loopBody_pc (w : World) : (main_loopBody w).pc = w.pc := rfl

theorem main_loopBody_trace (w : World) :
    (main_loopBody w).trace
      = w.trace ++ [Event.cout ("counter value " ++ toString w.counter), Event.sleep 1] := by
  simp [main_loopBody, World.emit]

@[simp] theorem run_nil (m : ResultCodes) (env : Env) (w : World) : run m env w [] = w := rfl

@[simp] theorem run_cons (m : ResultCodes) (env : Env) (w : World) (s : Step) (sched : List Step) :
    run m env w (s :: sched) = run m env (step m env w s) sched := rfl

theorem run_append (m : ResultCodes) (env : Env) (w : World) (a b : List Step) :
    run m env w (a ++ b) = run m env (run m env w a) b := by
  simp [run, List.foldl_append]

theorem main_configure_counter (m : ResultCodes) (env : Env) (w : World)
    (d_pin : Option Gpio) : (main_configure m env w d_pin).counter = w.counter := by
  unfold main_configure
  cases d_pin with
  | none => rfl
  | some g =>
    simp only
    split
    · rfl
    · split <;> rfl

theorem main_startup_counter (m : ResultCodes) (env : Env) (w : World) :
    (main_startup m env w).counter = w.counter := by
  rcases env with ⟨p, ng, d, i⟩
  cases p <;> simp only [main_startup, newGpio]
  · by_cases h : ng 4 = true <;> simp [h, terminate, World.emit, main_configure_counter]
  · by_cases h : ng 4 = true <;> simp [h, terminate, World.emit, main_configure_counter]
  · by_cases h : ng 4 = true <;> simp [h, terminate, World.emit, main_configure_counter]
  · by_cases h : ng 1 = true <;> simp [h, terminate, World.emit, main_configure_counter]
  · rfl

theorem mainStep_counter (m : ResultCodes) (env : Env) (w : World) :
    (mainStep m env w).counter = w.counter := by
  unfold mainStep
  split
  · exact main_startup_counter m env w
  · rfl
  · rfl
  · rfl

/-! ## Outcomes of the start-up block -/

theorem documentedPin_eq_none (p : Platform) :
    documentedPin p = none ↔
      (p ≠ Platform.INTEL_GALILEO_GEN1 ∧ p ≠ Platform.INTEL_GALILEO_GEN2
        ∧ p ≠ Platform.INTEL_EDISON_FAB_C ∧ p ≠ Platform.INTEL_GT_TUCHUCK) := by
  cases p <;> simp [documentedPin]

theorem main_startup_unsupported (m : ResultCodes) (env : Env) (w : World)
    (h : documentedPin env.getPlatformType = none) :
    main_startup m env w =
      { counter := w.counter
        trace := w.trace ++ [Event.getPlatformType, Event.cerr "Unsupported platform, exiting"]
        pc := Pc.returned m.ERROR_INVALID_PLATFORM } := by
  rcases env with ⟨p, ng, d, i⟩
  cases p <;> simp [documentedPin] at h
  simp [main_startup, World.emit]

theorem main_startup_ctor_fails (m : ResultCodes) (env : Env) (w : World) (pin : Int)
    (h : documentedPin env.getPlatformType = some pin) (hc : env.newGpio pin = false) :
    main_startup m env w =
      { counter := w.counter
        trace := w.trace ++ [Event.getPlatformType, Event.newGpio pin]
        pc := Pc.aborted } := by
  rcases env with ⟨p, ng, d, i⟩
  cases p <;> simp [documentedPin] at h <;>
    (subst h; simp only at hc; simp [main_startup, newGpio, World.emit, terminate, hc])

theorem main_startup_supported (m : ResultCodes) (env : Env) (w : World) (pin : Int)
    (h : documentedPin env.getPlatformType = some pin) (hc : env.newGpio pin = true) :
    main_startup m env w =
      main_configure m env
        { w with trace := w.trace ++ [Event.getPlatformType, Event.newGpio pin] }
        (some { pin := pin }) := by
  rcases env with ⟨p, ng, d, i⟩
  cases p <;> simp [documentedPin] at h <;>
    (subst h; simp only at hc; simp [main_startup, newGpio, World.emit, hc])

theorem main_startup_dir_fails (m : ResultCodes) (env : Env) (w : World) (pin : Int)
    (h : documentedPin env.getPlatformType = some pin) (hc : env.newGpio pin = true)
    (hd : env.dir { pin := pin } Dir.DIR_IN ≠ m.SUCCESS) :
    main_startup m env w =
      { counter := w.counter
        trace := w.trace ++ [Event.getPlatformType, Event.newGpio pin,
          Event.dir { pin := pin } Dir.DIR_IN,
          Event.cerr "Can't set digital pin as input, exiting"]
        pc := Pc.returned m.ERROR_UNSPECIFIED } := by
  rw [main_startup_supported m env w pin h hc]
  simp [hd, main_configure, World.emit]

theorem main_startup_isr_fails (m : ResultCodes) (env : Env) (w : World) (pin : Int)
    (h : documentedPin env.getPlatformType = some pin) (hc : env.newGpio pin = true)
    (hd : env.dir { pin := pin } Dir.DIR_IN = m.SUCCESS)
    (hi : env.isr { pin := pin } Edge.EDGE_BOTH Callback.interrupt NULL ≠ m.SUCCESS) :
    main_startup m env w =
      { counter := w.counter
        trace := w.trace ++ [Event.getPlatformType, Event.newGpio pin,
          Event.dir { pin := pin } Dir.DIR_IN,
          Event.isr { pin := pin } Edge.EDGE_BOTH Callback.interrupt NULL,
          Event.cerr "Can't assign ISR to pin, exiting"]
        pc := Pc.returned m.ERROR_UNSPECIFIED } := by
  rw [main_startup_supported m env w pin h hc]
  simp [hd, hi, main_configure, World.emit]

theorem main_startup_ok (m : ResultCodes) (env : Env) (w : World) (pin : Int)
    (h : documentedPin env.getPlatformType = some pin) (hc : env.newGpio pin = true)
    (hd : env.dir { pin := pin } Dir.DIR_IN = m.SUCCESS)
    (hi : env.isr { pin := pin } Edge.EDGE_BOTH Callback.interrupt NULL = m.SUCCESS) :
    main_startup m env w =
      { counter := w.counter
        trace := w.trace ++ startupCalls pin
        pc := Pc.loop } := by
  rw [main_startup_supported m env w pin h hc]
  simp [hd, hi, main_configure, World.emit, startupCalls]

/-- The null test of line 79 is never taken: whatever the library answers, the
start-up block does not write its diagnostic. -/
theorem main_startup_null_branch_dead (m : ResultCodes) (env : Env) :
    Event.cerr "Can't create mraa::Gpio object, exiting" ∉ (main_startup m env init).trace := by
  cases hp : documentedPin env.getPlatformType with
  | none => rw [main_startup_unsupported m env init hp]; simp [init]
  | some pin =>
    by_cases hc : env.newGpio pin = true
    · by_cases hd : env.dir { pin := pin } Dir.DIR_IN = m.SUCCESS
      · by_cases hi : env.isr { pin := pin } Edge.EDGE_BOTH Callback.interrupt NULL = m.SUCCESS
        · rw [main_startup_ok m env init pin hp hc hd hi]; simp [init, startupCalls]
        · rw [main_startup_isr_fails m env init pin hp hc hd hi]; simp [init]
      · rw [main_startup_dir_fails m env init pin hp hc hd]; simp [init]
    · rw [main_startup_ctor_fails m env init pin hp (by simpa using hc)]; simp [init]

/-! ## Runs -/

theorem run_of_returned (m : ResultCodes) (env : Env) (s : Int) (sched : List Step) :
    ∀ w : World, w.pc = Pc.returned s →
      (run m env w sched).pc = Pc.returned s ∧ (run m env w sched).trace = w.trace := by
  induction sched with
  | nil => intro w h; exact ⟨h, rfl⟩
  | cons a rest ih =>
    intro w h
    cases a with
    | irq args =>
      have := ih (interrupt args w) (by simpa using h)
      simpa [step] using this
    | main =>
      have hw : mainStep m env w = w := by simp [mainStep, h]
      simpa [step, hw] using ih w h

theorem run_of_aborted (m : ResultCodes) (env : Env) (sched : List Step) :
    ∀ w : World, w.pc = Pc.aborted →
      (run m env w sched).pc = Pc.aborted ∧ (run m env w sched).trace = w.trace := by
  induction sched with
  | nil => intro w h; exact ⟨h, rfl⟩
  | cons a rest ih =>
    intro w h
    cases a with
    | irq args =>
      have := ih (interrupt args w) (by simpa using h)
      simpa [step] using this
    | main =>
      have hw : mainStep m env w = w := by simp [mainStep, h]
      simpa [step, hw] using ih w h

/-- In the loop the main thread stays in the loop, and each of its slots adds
one counter line and one sleep to the trace. -/
theorem run_of_loop (m : ResultCodes) (env : Env) (sched : List Step) :
    ∀ w : World, w.pc = Pc.loop →
      (run m env w sched).pc = Pc.loop ∧
        ∃ vs : List Int, (run m env w sched).trace = w.trace ++ loopOutput vs ∧
          vs.length = mainCount sched := by
  induction sched with
  | nil => intro w h; exact ⟨h, [], by simp [loopOutput], by simp [mainCount]⟩
  | cons a rest ih =>
    intro w h
    cases a with
    | irq args =>
      have := ih (interrupt args w) (by simpa using h)
      simpa [step, mainCount] using this
    | main =>
      have hw : mainStep m env w = main_loopBody w := by simp [mainStep, h]
      obtain ⟨hpc, vs, ht, hlen⟩ := ih (main_loopBody w) (by simpa using h)
      refine ⟨by simpa [step, hw] using hpc, w.counter :: vs, ?_, ?_⟩
      · simp [step, hw, ht, main_loopBody_trace, loopOutput]
      · simp [mainCount, hlen]

theorem run_before_main (m : ResultCodes) (env : Env) (sched : List Step) :
    ∀ w : World, Step.main ∉ sched →
      (run m env w sched).pc = w.pc ∧ (run m env w sched).trace = w.trace := by
  induction sched with
  | nil => intro w _; exact ⟨rfl, rfl⟩
  | cons a rest ih =>
    intro w h
    cases a with
    | irq args =>
      have := ih (interrupt args w) (fun hm => h (List.mem_cons_of_mem _ hm))
      simpa [step] using this
    | main => exact absurd (List.mem_cons_self _ _) h

/-- A schedule in which the main thread runs at least once first lets some
callback invocations pass, then executes the start-up block. -/
theorem run_from_entry (m : ResultCodes) (env : Env) (sched : List Step) :
    ∀ w : World, w.pc = Pc.entry → Step.main ∈ sched →
      ∃ (w0 : World) (rest : List Step), w0.pc = Pc.entry ∧ w0.trace = w.trace ∧
        mainCount sched = mainCount rest + 1 ∧
        run m env w sched = run m env (main_startup m env w0) rest := by
  induction sched with
  | nil => intro w _ h; simp at h
  | cons a rest ih =>
    intro w hpc h
    cases a with
    | irq args =>
      have hm : Step.main ∈ rest := by simpa using h
      obtain ⟨w0, r, h1, h2, hcnt, h3⟩ := ih (interrupt args w) (by simpa using hpc) hm
      exact ⟨w0, r, h1, by simpa using h2, by simpa [mainCount] using hcnt,
        by simpa [step] using h3⟩
    | main =>
      exact ⟨w, rest, hpc, rfl, by simp [mainCount], by simp [step, mainStep, hpc]⟩

theorem run_unsupported (m : ResultCodes) (env : Env) (sched : List Step)
    (h : documentedPin env.getPlatformType = none) (hm : Step.main ∈ sched) :
    (run m env init sched).pc = Pc.returned m.ERROR_INVALID_PLATFORM ∧
      (run m env init sched).trace
        = [Event.getPlatformType, Event.cerr "Unsupported platform, exiting"] := by
  obtain ⟨w0, rest, _, h2, _, h3⟩ := run_from_entry m env sched init rfl hm
  have hs := main_startup_unsupported m env w0 h
  have := run_of_returned m env m.ERROR_INVALID_PLATFORM rest (main_startup m env w0) (by rw [hs])
  rw [h3]
  simpa [hs, h2, init] using this

/-- A constructor that throws: the process is terminated after the
constructor call, whatever the schedule. -/
theorem run_ctor_fails (m : ResultCodes) (env : Env) (sched : List Step) (pin : Int)
    (h : documentedPin env.getPlatformType = some pin) (hc : env.newGpio pin = false)
    (hm : Step.main ∈ sched) :
    (run m env init sched).pc = Pc.aborted ∧
      (run m env init sched).trace = [Event.getPlatformType, Event.newGpio pin] := by
  obtain ⟨w0, rest, _, h2, _, h3⟩ := run_from_entry m env sched init rfl hm
  have hs := main_startup_ctor_fails m env w0 pin h hc
  have := run_of_aborted m env rest (main_startup m env w0) (by rw [hs])
  rw [h3]
  simpa [hs, h2, init] using this

theorem run_dir_fails (m : ResultCodes) (env : Env) (sched : List Step) (pin : Int)
    (h : documentedPin env.getPlatformType = some pin) (hc : env.newGpio pin = true)
    (hd : env.dir { pin := pin } Dir.DIR_IN ≠ m.SUCCESS) (hm : Step.main ∈ sched) :
    (run m env init sched).pc = Pc.returned m.ERROR_UNSPECIFIED ∧
      (run m env init sched).trace
        = [Event.getPlatformType, Event.newGpio pin, Event.dir { pin := pin } Dir.DIR_IN,
           Event.cerr "Can't set digital pin as input, exiting"] := by
  obtain ⟨w0, rest, _, h2, _, h3⟩ := run_from_entry m env sched init rfl hm
  have hs := main_startup_dir_fails m env w0 pin h hc hd
  have := run_of_returned m env m.ERROR_UNSPECIFIED rest (main_startup m env w0) (by rw [hs])
  rw [h3]
  simpa [hs, h2, init] using this

theorem run_isr_fails (m : ResultCodes) (env : Env) (sched : List Step) (pin : Int)
    (h : documentedPin env.getPlatformType = some pin) (hc : env.newGpio pin = true)
    (hd : env.dir { pin := pin } Dir.DIR_IN = m.SUCCESS)
    (hi : env.isr { pin := pin } Edge.EDGE_BOTH Callback.interrupt NULL ≠ m.SUCCESS)
    (hm : Step.main ∈ sched) :
    (run m env init sched).pc = Pc.returned m.ERROR_UNSPECIFIED ∧
      (run m env init sched).trace
        = [Event.getPlatformType, Event.newGpio pin, Event.dir { pin := pin } Dir.DIR_IN,
           Event.isr { pin := pin } Edge.EDGE_BOTH Callback.interrupt NULL,
           Event.cerr "Can't assign ISR to pin, exiting"] := by
  obtain ⟨w0, rest, _, h2, _, h3⟩ := run_from_entry m env sched init rfl hm
  have hs := main_startup_isr_fails m env w0 pin h hc hd hi
  have := run_of_returned m env m.ERROR_UNSPECIFIED rest (main_startup m env w0) (by rw [hs])
  rw [h3]
  simpa [hs, h2, init] using this

theorem run_ok (m : ResultCodes) (env : Env) (sched : List Step) (pin : Int)
    (h : documentedPin env.getPlatformType = some pin) (hc : env.newGpio pin = true)
    (hd : env.dir { pin := pin } Dir.DIR_IN = m.SUCCESS)
    (hi : env.isr { pin := pin } Edge.EDGE_BOTH Callback.interrupt NULL = m.SUCCESS)
    (hm : Step.main ∈ sched) :
    (run m env init sched).pc = Pc.loop ∧
      ∃ vs : List Int, (run m env init sched).trace = startupCalls pin ++ loopOutput vs ∧
        vs.length + 1 = mainCount sched := by
  obtain ⟨w0, rest, _, h2, hcnt, h3⟩ := run_from_entry m env sched init rfl hm
  have hs := main_startup_ok m env w0 pin h hc hd hi
  obtain ⟨hpc, vs, ht, hlen⟩ :=
    run_of_loop m env rest (main_startup m env w0) (by rw [hs])
  rw [h3]
  refine ⟨hpc, vs, ?_, by omega⟩
  simpa [hs, h2, init] using ht

theorem gpioPins_append (a b : List Event) : gpioPins (a ++ b) = gpioPins a ++ gpioPins b := by
  simp [gpioPins]

theorem stdoutLines_append (a b : List Event) :
    stdoutLines (a ++ b) = stdoutLines a ++ stdoutLines b := by
  simp [stdoutLines]

theorem stderrLines_append (a b : List Event) :
    stderrLines (a ++ b) = stderrLines a ++ stderrLines b := by
  simp [stderrLines]

theorem hwCalls_append (a b : List Event) : hwCalls (a ++ b) = hwCalls a ++ hwCalls b := by
  simp [hwCalls]

theorem loopOutput_silent (vs : List Int) :
    gpioPins (loopOutput vs) = [] ∧ hwCalls (loopOutput vs) = [] ∧
      stderrLines (loopOutput vs) = [] := by
  induction vs with
  | nil => simp [loopOutput, gpioPins, hwCalls, stderrLines]
  | cons v rest ih =>
    obtain ⟨h1, h2, h3⟩ := ih
    refine ⟨?_, ?_, ?_⟩
    · simpa [loopOutput, gpioPins] using h1
    · simpa [loopOutput, hwCalls] using h2
    · simpa [loopOutput, stderrLines] using h3

/-! ## Platform resolution and the unsupported-platform exit -/

/-- C1: whatever the platform and however the process is scheduled, the pin
numbers handed to the `Gpio` constructor are exactly those of the documented
table: pin 4 for the two Galileo boards and the Edison, pin 1 for the Tuchuck
board, and none at all for any other platform (and none before `main` runs). -/
theorem C1_pin_resolution (m : ResultCodes) (env : Env) (sched : List Step) :
    gpioPins (run m env init sched).trace =
      if Step.main ∈ sched then (documentedPin env.getPlatformType).toList else [] := by
  by_cases hm : Step.main ∈ sched
  · rw [if_pos hm]
    cases hp : documentedPin env.getPlatformType with
    | none =>
      rw [(run_unsupported m env sched hp hm).2]
      simp [gpioPins]
    | some pin =>
      by_cases hc : env.newGpio pin = true
      · by_cases hd : env.dir { pin := pin } Dir.DIR_IN = m.SUCCESS
        · by_cases hi : env.isr { pin := pin } Edge.EDGE_BOTH Callback.interrupt NULL = m.SUCCESS
          · obtain ⟨_, vs, ht, _⟩ := run_ok m env sched pin hp hc hd hi hm
            rw [ht, gpioPins_append, (loopOutput_silent vs).1]
            simp [gpioPins, startupCalls]
          · rw [(run_isr_fails m env sched pin hp hc hd hi hm).2]
            simp [gpioPins]
        · rw [(run_dir_fails m env sched pin hp hc hd hm).2]
          simp [gpioPins]
      · rw [(run_ctor_fails m env sched pin hp (by simpa using hc) hm).2]
        simp [gpioPins]
  · rw [if_neg hm, (run_before_main m env sched init hm).2]
    simp [gpioPins, init]

/-- C2: on every platform other than Galileo Gen 1, Galileo Gen 2, Edison and
Tuchuck, once the main thread has run, `main` has returned
`ERROR_INVALID_PLATFORM`; all the process ever did is query the platform and
write "Unsupported platform, exiting" to standard error: no `Gpio` was
constructed, `dir` and `isr` were not called, nothing was printed. -/
theorem C2_unsupported_platform (m : ResultCodes) (env : Env) (sched : List Step)
    (h1 : env.getPlatformType ≠ Platform.INTEL_GALILEO_GEN1)
    (h2 : env.getPlatformType ≠ Platform.INTEL_GALILEO_GEN2)
    (h3 : env.getPlatformType ≠ Platform.INTEL_EDISON_FAB_C)
    (h4 : env.getPlatformType ≠ Platform.INTEL_GT_TUCHUCK)
    (hm : Step.main ∈ sched) :
    exitStatus (run m env init sched) = some m.ERROR_INVALID_PLATFORM ∧
      (run m env init sched).trace
        = [Event.getPlatformType, Event.cerr "Unsupported platform, exiting"] ∧
      stderrLines (run m env init sched).trace = ["Unsupported platform, exiting"] ∧
      hwCalls (run m env init sched).trace = [Event.getPlatformType] ∧
      gpioPins (run m env init sched).trace = [] ∧
      stdoutLines (run m env init sched).trace = [] := by
  have hp : documentedPin env.getPlatformType = none :=
    (documentedPin_eq_none _).2 ⟨h1, h2, h3, h4⟩
  obtain ⟨hpc, ht⟩ := run_unsupported m env sched hp hm
  refine ⟨by simp [exitStatus, hpc], ht, ?_, ?_, ?_, ?_⟩ <;> rw [ht] <;>
    simp [stderrLines, hwCalls, gpioPins, stdoutLines]

/-- Witness for C2: a platform outside the table, interrupted once before and
once after the main thread runs. -/
theorem C2_unsupported_platform_witness :
    exitStatus (run mraaCodes envUnsupported init [Step.irq 0, Step.main, Step.irq 0, Step.main])
        = some 10 ∧
      (run mraaCodes envUnsupported init [Step.irq 0, Step.main, Step.irq 0, Step.main]).trace
        = [Event.getPlatformType, Event.cerr "Unsupported platform, exiting"] :=
  have h := C2_unsupported_platform mraaCodes envUnsupported
    [Step.irq 0, Step.main, Step.irq 0, Step.main]
    (by decide) (by decide) (by decide) (by decide) (by decide)
  ⟨h.1, h.2.1⟩

/-! ## Exit statuses of the failure cases -/

/-- The status `main` returns in each failure case in which it returns. -/
theorem exitStatus_of_failure (m : ResultCodes) (env : Env) (f : Failure) (sched : List Step)
    (hf : failureOf m env = some f) (hcon : f ≠ Failure.construction)
    (hm : Step.main ∈ sched) :
    exitStatus (run m env init sched)
      = some (if f = Failure.unsupportedPlatform then m.ERROR_INVALID_PLATFORM
              else m.ERROR_UNSPECIFIED) := by
  unfold failureOf at hf
  cases hp : documentedPin env.getPlatformType with
  | none =>
    simp only [hp, Option.some.injEq] at hf
    subst hf
    simp [exitStatus, (run_unsupported m env sched hp hm).1]
  | some pin =>
    simp only [hp] at hf
    by_cases hc : env.newGpio pin = true
    · by_cases hd : env.dir { pin := pin } Dir.DIR_IN = m.SUCCESS
      · by_cases hi : env.isr { pin := pin } Edge.EDGE_BOTH Callback.interrupt NULL = m.SUCCESS
        · simp [hc, hd, hi] at hf
        · simp [hc, hd, hi] at hf
          subst hf
          simp [exitStatus, (run_isr_fails m env sched pin hp hc hd hi hm).1]
      · simp [hc, hd] at hf
        subst hf
        simp [exitStatus, (run_dir_fails m env sched pin hp hc hd hm).1]
    · have hc2 : env.newGpio pin = false := by simpa using hc
      simp [hc2] at hf
      exact absurd hf.symm hcon

/-- A failed line construction: the process is terminated, `main` returns no
status. -/
theorem aborted_of_construction_failure (m : ResultCodes) (env : Env) (sched : List Step)
    (hf : failureOf m env = some Failure.construction) (hm : Step.main ∈ sched) :
    (run m env init sched).pc = Pc.aborted := by
  unfold failureOf at hf
  cases hp : documentedPin env.getPlatformType with
  | none => simp [hp] at hf
  | some pin =>
    simp only [hp] at hf
    by_cases hc : env.newGpio pin = true
    · by_cases hd : env.dir { pin := pin } Dir.DIR_IN = m.SUCCESS
      · by_cases hi : env.isr { pin := pin } Edge.EDGE_BOTH Callback.interrupt NULL = m.SUCCESS
        · simp [hc, hd, hi] at hf
        · simp [hc, hd, hi] at hf
      · simp [hc, hd] at hf
    · exact (run_ctor_fails m env sched pin hp (by simpa using hc) hm).1

/-- C3, as stated, fails: a failed direction setting and a failed callback
registration are two different failure cases, yet `main` returns the same
status (`ERROR_UNSPECIFIED`, 99) in both. -/
theorem C3_same_status_counterexample :
    failureOf mraaCodes envDirFails = some Failure.direction ∧
      failureOf mraaCodes envIsrFails = some Failure.registration ∧
      (run mraaCodes envDirFails init [Step.main]).trace
        = [Event.getPlatformType, Event.newGpio 4, Event.dir { pin := 4 } Dir.DIR_IN,
           Event.cerr "Can't set digital pin as input, exiting"] ∧
      (run mraaCodes envIsrFails init [Step.main]).trace
        = [Event.getPlatformType, Event.newGpio 4, Event.dir { pin := 4 } Dir.DIR_IN,
           Event.isr { pin := 4 } Edge.EDGE_BOTH Callback.interrupt NULL,
           Event.cerr "Can't assign ISR to pin, exiting"] ∧
      exitStatus (run mraaCodes envDirFails init [Step.main]) = some 99 ∧
      exitStatus (run mraaCodes envIsrFails init [Step.main]) = some 99 := by
  decide

/-- C3, amended: in the failure cases other than line construction, `main`
returns a status, which is `ERROR_INVALID_PLATFORM` for an unsupported platform
and `ERROR_UNSPECIFIED` for a failed direction setting and for a failed callback
registration alike.  When the library gives these two enumerators non-zero,
different values, each of these statuses is non-zero, and two of these failure
cases have the same status exactly when both are the unsupported platform or
neither is. -/
theorem C3_exit_statuses (m : ResultCodes) (e1 e2 : Env) (f1 f2 : Failure)
    (sched1 sched2 : List Step)
    (hP : m.ERROR_INVALID_PLATFORM ≠ 0) (hU : m.ERROR_UNSPECIFIED ≠ 0)
    (hPU : m.ERROR_INVALID_PLATFORM ≠ m.ERROR_UNSPECIFIED)
    (h1 : failureOf m e1 = some f1) (h2 : failureOf m e2 = some f2)
    (hc1 : f1 ≠ Failure.construction) (hc2 : f2 ≠ Failure.construction)
    (hm1 : Step.main ∈ sched1) (hm2 : Step.main ∈ sched2) :
    ∃ s1 s2 : Int,
      exitStatus (run m e1 init sched1) = some s1 ∧
      exitStatus (run m e2 init sched2) = some s2 ∧
      (s1 = if f1 = Failure.unsupportedPlatform then m.ERROR_INVALID_PLATFORM
            else m.ERROR_UNSPECIFIED) ∧
      (s2 = if f2 = Failure.unsupportedPlatform then m.ERROR_INVALID_PLATFORM
            else m.ERROR_UNSPECIFIED) ∧
      s1 ≠ 0 ∧ s2 ≠ 0 ∧
      (s1 = s2 ↔ (f1 = Failure.unsupportedPlatform ↔ f2 = Failure.unsupportedPlatform)) := by
  refine ⟨_, _, exitStatus_of_failure m e1 f1 sched1 h1 hc1 hm1,
    exitStatus_of_failure m e2 f2 sched2 h2 hc2 hm2, rfl, rfl, ?_, ?_, ?_⟩
  · split <;> assumption
  · split <;> assumption
  · by_cases a : f1 = Failure.unsupportedPlatform <;>
      by_cases b : f2 = Failure.unsupportedPlatform <;>
      simp [a, b, hPU, hPU.symm]

/-- Witness for the amended C3: an unsupported platform against a failed
direction setting, with the MRAA values 10 and 99. -/
theorem C3_exit_statuses_witness :
    ∃ s1 s2 : Int,
      exitStatus (run mraaCodes envUnsupported init [Step.main]) = some s1 ∧
      exitStatus (run mraaCodes envDirFails init [Step.irq 0, Step.main]) = some s2 ∧
      (s1 = if Failure.unsupportedPlatform = Failure.unsupportedPlatform
            then mraaCodes.ERROR_INVALID_PLATFORM else mraaCodes.ERROR_UNSPECIFIED) ∧
      (s2 = if Failure.direction = Failure.unsupportedPlatform
            then mraaCodes.ERROR_INVALID_PLATFORM else mraaCodes.ERROR_UNSPECIFIED) ∧
      s1 ≠ 0 ∧ s2 ≠ 0 ∧
      (s1 = s2 ↔ (Failure.unsupportedPlatform = Failure.unsupportedPlatform ↔
        Failure.direction = Failure.unsupportedPlatform)) :=
  C3_exit_statuses mraaCodes envUnsupported envDirFails Failure.unsupportedPlatform
    Failure.direction [Step.main] [Step.irq 0, Step.main]
    (by decide) (by decide) (by decide) (by decide) (by decide) (by decide) (by decide)
    (by decide) (by decide)

/-! ## Failures after platform resolution -/

/-- On a supported platform whose `Gpio` was constructed, a `dir(DIR_IN)` result
other than `SUCCESS` stops `main` before `isr`, and an `isr` result other than
`SUCCESS` stops it before the loop: the trace ends with the one diagnostic, no
counter line is printed and `main` has returned `ERROR_UNSPECIFIED`, however
long the schedule goes on. -/
theorem dir_isr_failure_stops_main (m : ResultCodes) (env : Env) (pin : Int)
    (sched : List Step)
    (hp : documentedPin env.getPlatformType = some pin) (hc : env.newGpio pin = true)
    (hm : Step.main ∈ sched) :
    (env.dir { pin := pin } Dir.DIR_IN ≠ m.SUCCESS →
      (run m env init sched).trace
        = [Event.getPlatformType, Event.newGpio pin, Event.dir { pin := pin } Dir.DIR_IN,
           Event.cerr "Can't set digital pin as input, exiting"] ∧
      exitStatus (run m env init sched) = some m.ERROR_UNSPECIFIED) ∧
    (env.dir { pin := pin } Dir.DIR_IN = m.SUCCESS →
      env.isr { pin := pin } Edge.EDGE_BOTH Callback.interrupt NULL ≠ m.SUCCESS →
      (run m env init sched).trace
        = [Event.getPlatformType, Event.newGpio pin, Event.dir { pin := pin } Dir.DIR_IN,
           Event.isr { pin := pin } Edge.EDGE_BOTH Callback.interrupt NULL,
           Event.cerr "Can't assign ISR to pin, exiting"] ∧
      exitStatus (run m env init sched) = some m.ERROR_UNSPECIFIED) := by
  refine ⟨?_, ?_⟩
  · intro hd
    obtain ⟨h1, h2⟩ := run_dir_fails m env sched pin hp hc hd hm
    exact ⟨h2, by simp [exitStatus, h1]⟩
  · intro hd hi
    obtain ⟨h1, h2⟩ := run_isr_fails m env sched pin hp hc hd hi hm
    exact ⟨h2, by simp [exitStatus, h1]⟩

/-- C4, the failing input: on Galileo Gen 1 with a `Gpio` constructor that
fails (throws), the process is terminated right after the constructor call.
`dir` and `isr` are indeed not called and no counter line is printed, but the
diagnostic of line 80 is not written and `main` does not return: the null test
of line 79, meant for this failure, is never reached. -/
theorem C4_construction_failure_aborts :
    (run mraaCodes envCtorFails init [Step.main, Step.irq 0, Step.main]).trace
        = [Event.getPlatformType, Event.newGpio 4] ∧
      (run mraaCodes envCtorFails init [Step.main, Step.irq 0, Step.main]).pc = Pc.aborted ∧
      exitStatus (run mraaCodes envCtorFails init [Step.main, Step.irq 0, Step.main]) = none ∧
      Event.cerr "Can't create mraa::Gpio object, exiting" ∉
        (run mraaCodes envCtorFails init [Step.main, Step.irq 0, Step.main]).trace := by
  decide

/-! ## The counter -/

theorem toString_natCast (n : Nat) : toString ((n : Nat) : Int) = toString n := rfl

theorem irqCount_append (a b : List Step) : irqCount (a ++ b) = irqCount a + irqCount b := by
  induction a with
  | nil => simp [irqCount]
  | cons s rest ih =>
    cases s with
    | irq args => simp [irqCount, ih]; omega
    | main => simp [irqCount, ih]

theorem irqCount_map_irq (args : List Ptr) : irqCount (args.map Step.irq) = args.length := by
  induction args with
  | nil => rfl
  | cons a rest ih => simp [irqCount, ih]

/-- Without overflow the counter moves up by the number of callback invocations
in the schedule. -/
theorem run_counter (m : ResultCodes) (env : Env) (sched : List Step) :
    ∀ w : World, INT_MIN ≤ w.counter → w.counter + irqCount sched ≤ INT_MAX →
      (run m env w sched).counter = w.counter + irqCount sched := by
  induction sched with
  | nil => intro w _ _; simp [irqCount]
  | cons s rest ih =>
    intro w h1 h2
    cases s with
    | irq args =>
      simp only [irqCount, Nat.cast_add, Nat.cast_one] at h2
      have hw : wrapInt (w.counter + 1) = w.counter + 1 :=
        wrapInt_eq_self _ (by omega) (by omega)
      have := ih (interrupt args w) (by simp [hw]; omega) (by simp [hw]; omega)
      simp only [run_cons, step, this, interrupt_counter, hw, irqCount, Nat.cast_add,
        Nat.cast_one]
      omega
    | main =>
      simp only [irqCount] at h2
      have := ih (mainStep m env w) (by rw [mainStep_counter]; exact h1)
        (by rw [mainStep_counter]; exact h2)
      simp only [run_cons, step, this, mainStep_counter, irqCount]

/-- Callback invocations alone leave everything but the counter as it was. -/
theorem run_irqs (m : ResultCodes) (env : Env) (args : List Ptr) (w : World)
    (h1 : INT_MIN ≤ w.counter) (h2 : w.counter + args.length ≤ INT_MAX) :
    run m env w (args.map Step.irq) = { w with counter := w.counter + args.length } := by
  have hc := run_counter m env (args.map Step.irq) w h1 (by rw [irqCount_map_irq]; exact h2)
  have hn : Step.main ∉ args.map Step.irq := by simp
  obtain ⟨hp, ht⟩ := run_before_main m env (args.map Step.irq) w hn
  rw [irqCount_map_irq] at hc
  cases hr : run m env w (args.map Step.irq) with
  | mk c t p =>
    rw [hr] at hc hp ht
    simp only at hc hp ht
    subst hc hp ht
    rfl

/-- With wrap-around: a positive number of callback invocations in a row. -/
theorem run_replicate_irq (m : ResultCodes) (env : Env) (a : Ptr) (n : Nat) :
    ∀ w : World, 0 < n →
      (run m env w (List.replicate n (Step.irq a))).counter = wrapInt (w.counter + n) := by
  induction n with
  | zero => intro w h; omega
  | succ k ih =>
    intro w _
    rcases Nat.eq_zero_or_pos k with hk | hk
    · subst hk
      simp [List.replicate, step]
    · have := ih (interrupt a w) hk
      simp only [List.replicate_succ, run_cons, step, this, interrupt_counter]
      rw [wrapInt_add_wrapInt]
      congr 1
      push_cast
      ring

/-- C5: let start-up succeed and let the callback be invoked `N` times in all
before the first pass through the loop (some invocations before the start-up
block ran, the others after it), with `N` at most `2^31 - 1`.  Then, however the
schedule continues, the first line on standard output is "counter value "
followed by `N` in decimal. -/
theorem C5_first_line (m : ResultCodes) (env : Env) (pin : Int) (N : Nat)
    (pre mid : List Ptr) (rest : List Step)
    (hp : documentedPin env.getPlatformType = some pin) (hc : env.newGpio pin = true)
    (hd : env.dir { pin := pin } Dir.DIR_IN = m.SUCCESS)
    (hi : env.isr { pin := pin } Edge.EDGE_BOTH Callback.interrupt NULL = m.SUCCESS)
    (hcount : pre.length + mid.length = N) (hN : N ≤ 2147483647) :
    (stdoutLines (run m env init
        (pre.map Step.irq ++ Step.main :: (mid.map Step.irq ++ Step.main :: rest))).trace).head?
      = some ("counter value " ++ toString N) := by
  have e1 : run m env init (pre.map Step.irq) = { init with counter := pre.length } := by
    have := run_irqs m env pre init (by simp [init, INT_MIN])
      (by simp only [init, INT_MAX]; omega)
    simpa [init] using this
  have e2 : run m env init (pre.map Step.irq ++ [Step.main])
      = { counter := pre.length, trace := startupCalls pin, pc := Pc.loop } := by
    rw [run_append, e1]
    simp [step, mainStep, init, main_startup_ok m env _ pin hp hc hd hi]
  have e3 : run m env init (pre.map Step.irq ++ [Step.main] ++ mid.map Step.irq)
      = { counter := N, trace := startupCalls pin, pc := Pc.loop } := by
    rw [run_append, e2, run_irqs m env mid _ (by simp only [INT_MIN]; omega)
      (by simp only [INT_MAX]; omega)]
    simp only [World.mk.injEq, and_true]
    omega
  have e4 : run m env init (pre.map Step.irq ++ [Step.main] ++ mid.map Step.irq ++ [Step.main])
      = { counter := N
          trace := startupCalls pin ++ [Event.cout ("counter value " ++ toString N),
            Event.sleep 1]
          pc := Pc.loop } := by
    rw [run_append, e3]
    simp [step, mainStep, main_loopBody, World.emit, toString_natCast]
  have e5 : pre.map Step.irq ++ Step.main :: (mid.map Step.irq ++ Step.main :: rest)
      = pre.map Step.irq ++ [Step.main] ++ mid.map Step.irq ++ [Step.main] ++ rest := by
    simp
  rw [e5, run_append, e4]
  obtain ⟨_, evs, ht, _⟩ := run_of_loop m env rest
    { counter := N
      trace := startupCalls pin ++ [Event.cout ("counter value " ++ toString N),
        Event.sleep 1]
      pc := Pc.loop } rfl
  rw [ht]
  simp [stdoutLines, startupCalls]

/-- Witness for C5: three callback invocations (one of them before the
start-up block) on Galileo Gen 1, then the loop runs twice more. -/
theorem C5_first_line_witness :
    (stdoutLines (run mraaCodes envOk init
        ([0].map Step.irq ++ Step.main ::
          ([0, 0].map Step.irq ++ Step.main :: [Step.irq 0, Step.main]))).trace).head?
      = some ("counter value " ++ toString 3) :=
  C5_first_line mraaCodes envOk 4 3 [0] [0, 0] [Step.irq 0, Step.main]
    (by decide) (by decide) (by decide) (by decide) (by decide) (by decide)

/-- C6, as stated, fails: with start-up done, `2^31 - 1` callback invocations
bring the counter to `INT_MAX`, and one more (`2^31` in all) makes it `-2^31`,
which is negative and below the value before that step. -/
theorem C6_overflow_counterexample :
    (run mraaCodes envOk init
        (Step.main :: List.replicate 2147483647 (Step.irq NULL))).counter = 2147483647 ∧
      (run mraaCodes envOk init
        (Step.main :: List.replicate 2147483648 (Step.irq NULL))).counter = -2147483648 := by
  have h0 : (step mraaCodes envOk init Step.main).counter = 0 := by decide
  refine ⟨?_, ?_⟩
  · rw [run_cons, run_replicate_irq mraaCodes envOk NULL 2147483647 _ (by omega), h0]
    simp only [wrapInt, INT_MIN]
    omega
  · rw [run_cons, run_replicate_irq mraaCodes envOk NULL 2147483648 _ (by omega), h0]
    simp only [wrapInt, INT_MIN]
    omega

/-- C6, amended: as long as the callback has been invoked at most `2^31 - 1`
times in all, after any sequence of steps (callback invocations and main-thread
slots in any order) the counter equals the number of callback invocations so
far; so it is non-negative and no step makes it smaller. -/
theorem C6_counter_monotone (m : ResultCodes) (env : Env) (pre : List Step) (s : Step)
    (h : irqCount (pre ++ [s]) ≤ 2147483647) :
    (run m env init pre).counter = irqCount pre ∧
      (run m env init (pre ++ [s])).counter = irqCount (pre ++ [s]) ∧
      0 ≤ (run m env init pre).counter ∧
      0 ≤ (run m env init (pre ++ [s])).counter ∧
      (run m env init pre).counter ≤ (run m env init (pre ++ [s])).counter := by
  have ha := irqCount_append pre [s]
  have h1 : (run m env init pre).counter = irqCount pre := by
    have := run_counter m env pre init (by simp [init, INT_MIN])
      (by simp only [init, INT_MAX]; omega)
    simpa [init] using this
  have h2 : (run m env init (pre ++ [s])).counter = irqCount (pre ++ [s]) := by
    have := run_counter m env (pre ++ [s]) init (by simp [init, INT_MIN])
      (by simp only [init, INT_MAX]; omega)
    simpa [init] using this
  refine ⟨h1, h2, ?_, ?_, ?_⟩
  · rw [h1]; exact Int.natCast_nonneg _
  · rw [h2]; exact Int.natCast_nonneg _
  · rw [h1, h2, ha]
    push_cast
    omega

/-- Witness for the amended C6: start-up, a callback invocation, a loop pass,
then one more callback invocation. -/
theorem C6_counter_monotone_witness :
    (run mraaCodes envOk init [Step.main, Step.irq 0, Step.main]).counter
        = irqCount [Step.main, Step.irq 0, Step.main] ∧
      (run mraaCodes envOk init ([Step.main, Step.irq 0, Step.main] ++ [Step.irq 0])).counter
        = irqCount ([Step.main, Step.irq 0, Step.main] ++ [Step.irq 0]) ∧
      0 ≤ (run mraaCodes envOk init [Step.main, Step.irq 0, Step.main]).counter ∧
      0 ≤ (run mraaCodes envOk init
        ([Step.main, Step.irq 0, Step.main] ++ [Step.irq 0])).counter ∧
      (run mraaCodes envOk init [Step.main, Step.irq 0, Step.main]).counter
        ≤ (run mraaCodes envOk init
          ([Step.main, Step.irq 0, Step.main] ++ [Step.irq 0])).counter :=
  C6_counter_monotone mraaCodes envOk [Step.main, Step.irq 0, Step.main] (Step.irq 0)
    (by decide)

/-! ## Termination, the callback, the loop and the start-up order -/

theorem failureOf_eq_none (m : ResultCodes) (env : Env) (h : failureOf m env = none) :
    ∃ pin, documentedPin env.getPlatformType = some pin ∧ env.newGpio pin = true ∧
      env.dir { pin := pin } Dir.DIR_IN = m.SUCCESS ∧
      env.isr { pin := pin } Edge.EDGE_BOTH Callback.interrupt NULL = m.SUCCESS := by
  unfold failureOf at h
  cases hp : documentedPin env.getPlatformType with
  | none => simp [hp] at h
  | some pin =>
    simp only [hp] at h
    by_cases hc : env.newGpio pin = true
    · by_cases hd : env.dir { pin := pin } Dir.DIR_IN = m.SUCCESS
      · by_cases hi : env.isr { pin := pin } Edge.EDGE_BOTH Callback.interrupt NULL = m.SUCCESS
        · exact ⟨pin, rfl, hc, hd, hi⟩
        · simp [hc, hd, hi] at h
      · simp [hc, hd] at h
    · simp [hc] at h

/-- C7: provided the library's two error enumerators are non-zero, `main` never
returns 0.  Whenever it has returned, one of the four failure cases holds and
the status is the non-zero one of that case.  When no failure case holds, `main`
has not returned after any schedule, and it is in the loop as soon as the main
thread has run. -/
theorem C7_never_returns_success (m : ResultCodes) (env : Env) (sched : List Step)
    (hP : m.ERROR_INVALID_PLATFORM ≠ 0) (hU : m.ERROR_UNSPECIFIED ≠ 0) :
    (∀ status, exitStatus (run m env init sched) = some status →
      status ≠ 0 ∧
      ∃ f, failureOf m env = some f ∧
        status = if f = Failure.unsupportedPlatform then m.ERROR_INVALID_PLATFORM
                 else m.ERROR_UNSPECIFIED) ∧
    (failureOf m env = none →
      exitStatus (run m env init sched) = none ∧
      (Step.main ∈ sched → (run m env init sched).pc = Pc.loop)) := by
  by_cases hm : Step.main ∈ sched
  · cases hf : failureOf m env with
    | none =>
      obtain ⟨pin, hp, hc, hd, hi⟩ := failureOf_eq_none m env hf
      have hl := (run_ok m env sched pin hp hc hd hi hm).1
      refine ⟨?_, fun _ => ⟨by simp [exitStatus, hl], fun _ => hl⟩⟩
      intro status hs
      simp [exitStatus, hl] at hs
    | some f =>
      refine ⟨?_, fun h => by simp at h⟩
      intro status hs
      by_cases hcon : f = Failure.construction
      · subst hcon
        have ha := aborted_of_construction_failure m env sched hf hm
        simp [exitStatus, ha] at hs
      · have he := exitStatus_of_failure m env f sched hf hcon hm
        rw [he] at hs
        have hs2 := Option.some.inj hs
        refine ⟨?_, f, rfl, hs2.symm⟩
        rw [← hs2]
        split <;> assumption
  · have hpc : (run m env init sched).pc = Pc.entry := (run_before_main m env sched init hm).1
    refine ⟨?_, fun _ => ⟨by simp [exitStatus, hpc], fun h => absurd h hm⟩⟩
    intro status hs
    simp [exitStatus, hpc] at hs

/-- Witness for C7: the MRAA values 10 and 99, with a `dir` that fails. -/
theorem C7_never_returns_success_witness :
    (∀ status, exitStatus (run mraaCodes envDirFails init [Step.main, Step.main]) = some status →
      status ≠ 0 ∧
      ∃ f, failureOf mraaCodes envDirFails = some f ∧
        status = if f = Failure.unsupportedPlatform then mraaCodes.ERROR_INVALID_PLATFORM
                 else mraaCodes.ERROR_UNSPECIFIED) ∧
    (failureOf mraaCodes envDirFails = none →
      exitStatus (run mraaCodes envDirFails init [Step.main, Step.main]) = none ∧
      (Step.main ∈ [Step.main, Step.main] →
        (run mraaCodes envDirFails init [Step.main, Step.main]).pc = Pc.loop)) :=
  C7_never_returns_success mraaCodes envDirFails [Step.main, Step.main] (by decide) (by decide)

/-- C8: from any counter value in the `int` range below `INT_MAX`, and for any
argument pointer, one invocation of `interrupt` gives the same state with the
counter one higher: the trace (output lines, library calls, sleeps) and the
position of the main thread are untouched.  A different argument pointer gives
the same result. -/
theorem C8_interrupt_effect (args args2 : Ptr) (w : World)
    (h1 : INT_MIN ≤ w.counter) (h2 : w.counter < INT_MAX) :
    interrupt args w = { counter := w.counter + 1, trace := w.trace, pc := w.pc } ∧
      interrupt args2 w = interrupt args w := by
  refine ⟨?_, rfl⟩
  have hw : wrapInt (w.counter + 1) = w.counter + 1 :=
    wrapInt_eq_self _ (by unfold INT_MIN at *; omega) (by unfold INT_MAX at *; omega)
  simp [interrupt, hw]

/-- Witness for C8: counter 41 inside the loop, argument pointers 0 and 7. -/
theorem C8_interrupt_effect_witness :
    interrupt 0 { counter := 41, trace := startupCalls 4, pc := Pc.loop }
        = { counter := 41 + 1, trace := startupCalls 4, pc := Pc.loop } ∧
      interrupt 7 { counter := 41, trace := startupCalls 4, pc := Pc.loop }
        = interrupt 0 { counter := 41, trace := startupCalls 4, pc := Pc.loop } :=
  C8_interrupt_effect 0 7 { counter := 41, trace := startupCalls 4, pc := Pc.loop }
    (by decide) (by decide)

/-- C9: in the loop, let one pass print, then `k` callback invocations happen
without overflowing the `int`, then the next pass print.  The two lines are
"counter value a" and "counter value a + k", where `a` is the counter at the
first print; nothing else is done in between except the one-second sleep.  A
loop pass (print, then sleep) leaves the counter as it is, so with `k = 0` the
same value is printed again. -/
theorem C9_consecutive_prints (m : ResultCodes) (env : Env) (w : World) (irqs : List Ptr)
    (hpc : w.pc = Pc.loop) (h1 : INT_MIN ≤ w.counter)
    (h2 : w.counter + irqs.length ≤ INT_MAX) :
    (run m env w (Step.main :: (irqs.map Step.irq ++ [Step.main]))).trace
        = w.trace ++
          [Event.cout ("counter value " ++ toString w.counter), Event.sleep 1,
           Event.cout ("counter value " ++ toString (w.counter + irqs.length)), Event.sleep 1] ∧
      (run m env w (Step.main :: (irqs.map Step.irq ++ [Step.main]))).counter
        = w.counter + irqs.length ∧
      (step m env w Step.main).counter = w.counter ∧
      (main_loopBody w).counter = w.counter := by
  have hs : step m env w Step.main = main_loopBody w := by simp [step, mainStep, hpc]
  have hr := run_irqs m env irqs (main_loopBody w) (by simpa using h1) (by simpa using h2)
  have e : run m env w (Step.main :: (irqs.map Step.irq ++ [Step.main]))
      = main_loopBody { main_loopBody w with counter := w.counter + irqs.length } := by
    rw [run_cons, hs, run_append, hr]
    simp [step, mainStep, hpc]
  refine ⟨?_, ?_, by rw [hs]; rfl, rfl⟩
  · rw [e]
    simp [main_loopBody, World.emit]
  · rw [e]
    rfl

/-- Witness for C9: a loop state with counter 5, two callback invocations
between the prints. -/
theorem C9_consecutive_prints_witness :
    (run mraaCodes envOk { counter := 5, trace := startupCalls 4, pc := Pc.loop }
        (Step.main :: ([0, 0].map Step.irq ++ [Step.main]))).trace
      = startupCalls 4 ++
          [Event.cout "counter value 5", Event.sleep 1,
           Event.cout "counter value 7", Event.sleep 1] :=
  (C9_consecutive_prints mraaCodes envOk
    { counter := 5, trace := startupCalls 4, pc := Pc.loop } [0, 0]
    rfl (by decide) (by decide)).1

/-- C10: on each supported platform, when the constructor, `dir` and `isr` all
succeed, then once the main thread has run the trace begins with exactly the
platform query, one `Gpio` construction on the resolved pin, `dir(DIR_IN)` and
`isr(EDGE_BOTH, interrupt, NULL)`, in this order, and `main` is in the loop.
What follows these calls is the loop output and nothing else: one counter line
and one sleep for each main-thread slot after the first, so the first counter
line comes right after the `isr` call.  Each further main-thread slot appends
the line with the current counter and a one-second sleep; a callback invocation
appends nothing.  So each start-up call is made once, before the first counter
line; the edge mode is `EDGE_BOTH` whatever the platform; and one `Gpio` is
constructed, ever. -/
theorem C10_startup_order (m : ResultCodes) (env : Env) (pin : Int) (sched : List Step)
    (hp : documentedPin env.getPlatformType = some pin) (hc : env.newGpio pin = true)
    (hd : env.dir { pin := pin } Dir.DIR_IN = m.SUCCESS)
    (hi : env.isr { pin := pin } Edge.EDGE_BOTH Callback.interrupt NULL = m.SUCCESS)
    (hm : Step.main ∈ sched) :
    (run m env init sched).pc = Pc.loop ∧
      (∃ vs : List Int, (run m env init sched).trace
          = [Event.getPlatformType, Event.newGpio pin, Event.dir { pin := pin } Dir.DIR_IN,
             Event.isr { pin := pin } Edge.EDGE_BOTH Callback.interrupt NULL]
            ++ loopOutput vs ∧
          vs.length + 1 = mainCount sched) ∧
      (run m env init (sched ++ [Step.main])).trace
        = (run m env init sched).trace ++
          [Event.cout ("counter value " ++ toString (run m env init sched).counter),
           Event.sleep 1] ∧
      (∀ a : Ptr, (run m env init (sched ++ [Step.irq a])).trace
        = (run m env init sched).trace) ∧
      hwCalls (run m env init sched).trace
        = [Event.getPlatformType, Event.newGpio pin, Event.dir { pin := pin } Dir.DIR_IN,
           Event.isr { pin := pin } Edge.EDGE_BOTH Callback.interrupt NULL] ∧
      gpioPins (run m env init sched).trace = [pin] ∧
      stderrLines (run m env init sched).trace = [] := by
  obtain ⟨hl, vs, ht, hlen⟩ := run_ok m env sched pin hp hc hd hi hm
  obtain ⟨g1, g2, g3⟩ := loopOutput_silent vs
  refine ⟨hl, ⟨vs, ht, hlen⟩, ?_, ?_, ?_, ?_, ?_⟩
  · rw [run_append]
    simp [step, mainStep, hl, main_loopBody_trace]
  · intro a
    rw [run_append]
    simp [step]
  · rw [ht, hwCalls_append, g2]
    simp [hwCalls, startupCalls]
  · rw [ht, gpioPins_append, g1]
    simp [gpioPins, startupCalls]
  · rw [ht, stderrLines_append, g3]
    simp [stderrLines, startupCalls]

/-- Witness for C10: Galileo Gen 1, all calls succeeding; after start-up and
one callback invocation, the next main-thread slot prints "counter value 1". -/
theorem C10_startup_order_witness :
    (run mraaCodes envOk init [Step.main, Step.irq 0]).pc = Pc.loop ∧
      (run mraaCodes envOk init ([Step.main, Step.irq 0] ++ [Step.main])).trace
        = (run mraaCodes envOk init [Step.main, Step.irq 0]).trace ++
          [Event.cout ("counter value " ++
              toString (run mraaCodes envOk init [Step.main, Step.irq 0]).counter),
           Event.sleep 1] ∧
      hwCalls (run mraaCodes envOk init [Step.main, Step.irq 0]).trace
        = [Event.getPlatformType, Event.newGpio 4, Event.dir { pin := 4 } Dir.DIR_IN,
           Event.isr { pin := 4 } Edge.EDGE_BOTH Callback.interrupt NULL] :=
  have h := C10_startup_order mraaCodes envOk 4 [Step.main, Step.irq 0]
    (by decide) (by decide) (by decide) (by decide) (by decide)
  ⟨h.1, h.2.2.1, h.2.2.2.2.1⟩

end Interrupt
